import Mathlib

/-!
Shallow embedding of the `setup-opentap` GitHub action (`src/index.js`).

The action is a single sequential script: resolve platform/architecture,
build a download URL, download and extract an archive, write settings
documents, optionally install packages via a subprocess, and list the
installed packages.  We embed it as pure functions over an `Inputs`
record (the action's configuration inputs; the invoking environment
returns the empty string for an absent input) and an `Env` record (the
host facts the script observes: `os.platform()`, `os.arch()`, whether
each extraction mechanism succeeds, whether the settings directory
already exists).  All observable effects of a run are collected in a
`RunResult` record.
-/

namespace SetupOpenTap

/-- A repository descriptor as built in `main`:
`{ url, domain: new URL(url).host, token }`. -/
structure Repo where
  url : String
  domain : String
  token : String
deriving DecidableEq, Repr

/-- A package reference `{ Name, Version }` as pushed onto `image.Packages`;
`Version := none` models the JavaScript `undefined` produced when the
spec has no colon. -/
structure PackageRef where
  Name : String
  Version : Option String
deriving DecidableEq, Repr

/-- The installation manifest object serialized to `image.json`. -/
structure Image where
  Packages : List PackageRef
  Repositories : List String
deriving DecidableEq, Repr

/-- The action's named configuration inputs.  `core.getInput` yields `""`
for an absent input, and every truthiness test (`!!x`) on these strings
is exactly a non-emptiness test. -/
structure Inputs where
  version : String
  architecture : String
  os : String
  packages : String
  token : String
  additionalRepository : String
  additionalRepositoryToken : String
deriving DecidableEq, Repr

/-- Host facts observed by the script: the `os.platform()` and `os.arch()`
strings, whether `tc.extractZip` succeeds, whether the `pwsh`
fallback would succeed, and whether the settings directory already
exists on disk. -/
structure Env where
  platformString : String
  archString : String
  primaryExtractOk : Bool
  fallbackExtractOk : Bool
  settingsDirExists : Bool
deriving DecidableEq, Repr

/-- All observable effects of one run of `main`.  `extractAttempts` lists
the extraction mechanisms tried in order; `tapCalls` lists the argument
vectors of the invocations of the installed `tap` executable;
the three `...Write` fields hold the content written to
`Package Manager.xml`, `AuthenticationSettings.xml` and `image.json`
(`none` when the file is not written); `failure` is the
`core.setFailed` message, `none` when the run succeeds. -/
structure RunResult where
  downloadArgs : List String
  downloadUrl : String
  destDir : String
  extractAttempts : List String
  extracted : Bool
  settingsDirCreated : Bool
  chmodCalled : Bool
  pathAdded : Bool
  repositories : List Repo
  gateChecked : Bool
  pmSettingsWrite : Option (String × String)
  authSettingsWrite : Option (String × String)
  imageWrite : Option Image
  tapCalls : List (List String)
  failure : Option String
deriving DecidableEq, Repr

/-! ### The INSTALL_DIRS table and platform resolution -/

/-- The module-level `INSTALL_DIRS` lookup table.  `main` only ever looks
up one of the three keys produced by the platform switch; any other key
would yield `undefined` in JavaScript, modelled here by `""`. -/
def INSTALL_DIRS (platform : String) : String :=
  if platform = "linux" then ("/opt/tap")
  else if platform = "windows" then ("C:/Program Files/OpenTAP")
  else if platform = "macos" then ("/Users/runner/Library/OpenTAP")
  else ""

/-- The `switch (os.platform())` at the top of `main`: `darwin` becomes
`macos`, `win32` becomes `windows`, and every other platform string
falls through to `linux`. -/
def resolvePlatform (platformString : String) : String :=
  if platformString = "darwin" then ("macos")
  else if platformString = "win32" then ("windows")
  else ("linux")

/-! ### Settings document generators -/

/-- The literal opening of the authentication-settings document (up to
and including the `<Tokens ...>` line, with no trailing newline). -/
def authHeader : String :=
  "<?xml version=\"1.0\" encoding=\"utf-8\"?>\n<AuthenticationSettings type=\"OpenTap.Authentication.AuthenticationSettings\">\n  <Tokens type=\"System.Collections.Generic.List`1[[OpenTap.Authentication.TokenInfo]]\">"

/-- The literal fragment appended for one repository with a token. -/
def tokenInfoEntry (r : Repo) : String :=
  "\n    <TokenInfo>\n      <AccessToken>" ++ r.token ++ "</AccessToken>\n      <Domain>" ++ r.domain ++ "</Domain>\n    </TokenInfo>\n"

/-- The literal closing of the authentication-settings document. -/
def authFooter : String :=
  "  </Tokens>\n</AuthenticationSettings>"

/-- The generator `GetAuthenticationSettings(repositories)`: starts from the header,
appends one `TokenInfo` fragment per repository whose token is truthy
(non-empty), in order, then appends the footer. -/
def GetAuthenticationSettings (repositories : List Repo) : String :=
  (repositories.foldl
    (fun xml r => if r.token ≠ "" then xml ++ tokenInfoEntry r else xml)
    authHeader) ++ authFooter

/-- The literal opening of the package-manager-settings document. -/
def pmHeader : String :=
  "<?xml version=\"1.0\" encoding=\"utf-8\"?>\n<PackageManagerSettings type=\"OpenTap.Package.PackageManagerSettings\">\n  <UseLocalPackageCache>true</UseLocalPackageCache>\n  <ShowIncompatiblePackages>false</ShowIncompatiblePackages>\n  <CheckForUpdates>false</CheckForUpdates>\n  <Repositories>\n"

/-- The literal fragment appended for one repository entry. -/
def repoSettingEntry (r : Repo) : String :=
  "    <RepositorySettingEntry>\n      <Url>" ++ r.url ++ "</Url>\n      <IsEnabled>true</IsEnabled>\n    </RepositorySettingEntry>\n"

/-- The literal closing of the package-manager-settings document. -/
def pmFooter : String :=
  "  </Repositories>\n</PackageManagerSettings>"

/-- The generator `GetPackageManagerSettings(repositories)`: header, then one
`RepositorySettingEntry` fragment per repository unconditionally, in
order, then the footer. -/
def GetPackageManagerSettings (repositories : List Repo) : String :=
  (repositories.foldl (fun xml r => xml ++ repoSettingEntry r) pmHeader) ++ pmFooter

/-! ### Substring counting (used to state how many entries a document has) -/

/-- Number of positions of `l` at which `pat` occurs as a substring
(occurrences may overlap; all patterns used here are non-empty). -/
def countOccs (pat : List Char) : List Char → Nat
  | [] => 0
  | c :: cs => (if pat.isPrefixOf (c :: cs) then 1 else 0) + countOccs pat cs

/-- Number of occurrences of `"<TokenInfo>"` in a string. -/
def countTokenInfo (s : String) : Nat :=
  countOccs ("<TokenInfo>".toList) s.toList

/-! ### JavaScript-style string splitting and package-spec parsing -/

/-- JavaScript `s.split(sep)` for a single-character separator:
`"".split(sep)` is `[""]`, and each occurrence of the separator starts
a new field. -/
def splitChar (sep : Char) : List Char → List (List Char)
  | [] => [[]]
  | c :: cs =>
    if c = sep then [] :: splitChar sep cs
    else
      match splitChar sep cs with
      | [] => [[c]]
      | t :: ts => (c :: t) :: ts

/-- The package-parsing loop of `main`: split the `packages` input on
commas; for each spec, `Name` is `spec.split(":")[0]` and `Version`
is `spec.split(":")[1]` (absent when the spec has fewer than two
colon-separated fields). -/
def parsePackages (s : String) : List PackageRef :=
  (splitChar ',' s.toList).map fun spec =>
    let fields := splitChar ':' spec
    { Name := String.mk (fields.headD [])
      Version := fields[1]?.map String.mk }

/-! ### Version parsing (the regular expression of the version gate) -/

/-- JavaScript `Number(digits)` for a string of decimal digits. -/
def digitsToNat (l : List Char) : Nat :=
  l.foldl (fun n c => n * 10 + (c.toNat - 48)) 0

/-- The match of `/^(?<major>\d+)\.(?<minor>\d+)(\.(?<patch>\d+))?.*/`
against a character list: a non-empty digit run, a dot, a non-empty
digit run, then optionally a dot followed by a non-empty digit run,
with arbitrary trailing text.  Returns `(major, minor, patch?)` as the
numbers the gate computes with `Number`, or `none` when the expression
does not match (in which case `match.groups` throws in JavaScript). -/
def parseVersionChars (l : List Char) : Option (Nat × Nat × Option Nat) :=
  let d1 := l.takeWhile Char.isDigit
  if d1 = [] then none
  else
    match l.drop d1.length with
    | '.' :: r2 =>
      let d2 := r2.takeWhile Char.isDigit
      if d2 = [] then none
      else
        let patch :=
          match r2.drop d2.length with
          | '.' :: r4 =>
            let d3 := r4.takeWhile Char.isDigit
            if d3 = [] then none else some (digitsToNat d3)
          | _ => none
        some (digitsToNat d1, digitsToNat d2, patch)
    | _ => none

/-- The version parse `parseVersionChars` applied to a string. -/
def parseVersion (s : String) : Option (Nat × Nat × Option Nat) :=
  parseVersionChars s.toList

/-! ### URL host extraction and repository resolution -/

/-- JavaScript `s.startsWith(pre)`, as a prefix test on the character
lists. -/
def jsStartsWith (s pre : String) : Bool :=
  pre.toList.isPrefixOf s.toList

/-- Modelled JavaScript `new URL(s).host`, restricted to the URL shapes
this action constructs: a `http://` or `https://` prefix followed by a
host that runs to the next `/`, `?` or `#`.  A string without such a
scheme prefix (in particular one without any colon) makes the `URL`
constructor throw, modelled by `none`. -/
def urlHost (s : String) : Option String :=
  if jsStartsWith s ("https://") then
    some (String.mk ((s.drop 8).toList.takeWhile fun c => c ≠ '/' ∧ c ≠ '?' ∧ c ≠ '#'))
  else if jsStartsWith s ("http://") then
    some (String.mk ((s.drop 7).toList.takeWhile fun c => c ≠ '/' ∧ c ≠ '?' ∧ c ≠ '#'))
  else none

/-- The additional-repository resolution in `main`: prepend `https://`
exactly when the input does not start with the four characters
`http`. -/
def resolveAdditionalRepo (s : String) : String :=
  if jsStartsWith s ("http") then s else ("https://") ++ s

/-- Modelled from the spec, for comparison with the code: claim C5 speaks
of the input "having a scheme" ("`https://` is prepended if no scheme
given").  A URL scheme is a colon-terminated prefix, so we say —
generously — that a string has a scheme exactly when it contains a colon;
a string with no colon at all has no scheme under every reading.  This
definition is only compared against the code's `startsWith("http")`
test, never used by the embedding itself. -/
def specHasScheme (s : String) : Bool := s.toList.contains ':'

/-! ### Extraction -/

/-- The helper `extractZip`: try `tc.extractZip`; on any failure try
`pwsh Expand-Archive`; report whether either succeeded. -/
def extractZip (env : Env) : Bool :=
  env.primaryExtractOk || env.fallbackExtractOk

/-- The mechanisms `extractZip` attempts, in order: the fallback is
attempted exactly when the primary mechanism fails. -/
def extractZipAttempts (env : Env) : List String :=
  if env.primaryExtractOk then ["tc.extractZip"] else ["tc.extractZip", "pwsh"]

/-! ### Failure messages -/

/-- The `core.setFailed` message when both extraction mechanisms fail. -/
def extractFailMessage : String := "Unable to extract zip archive."

/-- The `core.setFailed` message of the version-compatibility gate. -/
def gateMessage : String :=
  "repository-token support requires OpenTAP 9.22.0 or greater."

/-- The message of the `TypeError` thrown by `new URL` on an invalid
URL, caught by the top-level handler. -/
def invalidUrlMessage : String := "Invalid URL"

/-- The message of the `TypeError` thrown by reading `.groups` of a
`null` regular-expression match, caught by the top-level handler. -/
def versionMatchCrashMessage : String :=
  "Cannot read properties of null (reading 'groups')"

/-! ### The main flow -/

/-- The effects of `main` from the extraction step on (everything after
the download URL, which is always built the same way).  Collecting them
in their own record keeps each branch of the control flow small. -/
structure MainEffects where
  settingsDirCreated : Bool
  chmodCalled : Bool
  pathAdded : Bool
  repositories : List Repo
  gateChecked : Bool
  pmSettingsWrite : Option (String × String)
  authSettingsWrite : Option (String × String)
  imageWrite : Option Image
  tapCalls : List (List String)
  failure : Option String
deriving DecidableEq, Repr

/-- The state before any post-extraction effect has happened. -/
def noEffects : MainEffects :=
  { settingsDirCreated := false, chmodCalled := false, pathAdded := false
    repositories := [], gateChecked := false
    pmSettingsWrite := none, authSettingsWrite := none, imageWrite := none
    tapCalls := [], failure := none }

/-- The post-download part of `main`: extraction, settings-directory
creation, chmod, PATH extension, the optional package-installation
block (repositories, package-manager settings, version gate,
authentication settings, image manifest, install subprocess), and the
final package-list subprocess.  Each early `return` of the script is a
branch that leaves the remaining effects unperformed. -/
def mainEffects (inp : Inputs) (env : Env) (platform settingsDir : String) :
    MainEffects :=
  if extractZip env = false then
    { noEffects with failure := some extractFailMessage }
  else
    let e0 : MainEffects :=
      { noEffects with
          settingsDirCreated := !env.settingsDirExists
          chmodCalled := platform ≠ "windows"
          pathAdded := true }
    if inp.packages = "" then
      { e0 with tapCalls := [["package", "list", "--installed"]] }
    else
      let defaultRepo : Repo :=
        { url := "https://packages.opentap.io"
          domain := (urlHost ("https://packages.opentap.io")).getD ("")
          token := inp.token }
      let addStep : Option (List Repo × Option (String × String)) :=
        if inp.additionalRepository = "" then some ([defaultRepo], none)
        else
          match urlHost (resolveAdditionalRepo inp.additionalRepository) with
          | none => none
          | some d =>
            let repos := [defaultRepo,
              { url := resolveAdditionalRepo inp.additionalRepository
                domain := d
                token := inp.additionalRepositoryToken }]
            some (repos,
              some (settingsDir ++ "Package Manager.xml",
                GetPackageManagerSettings repos))
      match addStep with
      | none =>
        { e0 with repositories := [defaultRepo]
                  failure := some invalidUrlMessage }
      | some (repos, pmW) =>
        let e1 := { e0 with repositories := repos, pmSettingsWrite := pmW }
        let hasToken := repos.any fun r => r.token ≠ ""
        let finish : MainEffects → MainEffects := fun b =>
          let b :=
            if hasToken then
              { b with authSettingsWrite := some (settingsDir ++ "AuthenticationSettings.xml", GetAuthenticationSettings repos) }
            else b
          let image : Image :=
            { Packages := parsePackages inp.packages
              Repositories := repos.map fun r => r.url }
          { b with
              imageWrite := some image
              tapCalls :=
                [["image", "install", "image.json", "--non-interactive",
                  "--merge"],
                 ["package", "list", "--installed"]] }
        if inp.version ≠ "" ∧ hasToken = true then
          let e2 := { e1 with gateChecked := true }
          match parseVersion inp.version with
          | none => { e2 with failure := some versionMatchCrashMessage }
          | some (_, minr, patchOpt) =>
            if minr < 21 ∨ (minr = 21 ∧ patchOpt.isSome ∧ patchOpt.getD 0 < 1)
            then { e2 with failure := some gateMessage }
            else finish e2
        else finish e1

/-- The whole of `main`, as a pure function from inputs and host facts to
the observable effects of the run. -/
def runMain (inp : Inputs) (env : Env) : RunResult :=
  let platform := resolvePlatform env.platformString
  let argsV : List String :=
    if inp.version ≠ "" then ["version=" ++ inp.version] else []
  let argsA : List String := argsV ++
    ["architecture=" ++
      (if inp.architecture ≠ "" then inp.architecture
       else if env.archString = "x32" then ("x86") else ("x64"))]
  let args : List String := argsA ++
    ["os=" ++ (if inp.os ≠ "" then inp.os else platform)]
  let url :=
    "https://packages.opentap.io/3.0/DownloadPackage/OpenTAP?" ++
      String.intercalate ("&") args
  let destDir := INSTALL_DIRS platform
  let settingsDir := destDir ++ "/Settings/"
  let e := mainEffects inp env platform settingsDir
  { downloadArgs := args, downloadUrl := url, destDir := destDir
    extractAttempts := extractZipAttempts env, extracted := extractZip env
    settingsDirCreated := e.settingsDirCreated
    chmodCalled := e.chmodCalled
    pathAdded := e.pathAdded
    repositories := e.repositories
    gateChecked := e.gateChecked
    pmSettingsWrite := e.pmSettingsWrite
    authSettingsWrite := e.authSettingsWrite
    imageWrite := e.imageWrite
    tapCalls := e.tapCalls
    failure := e.failure }

/-! ## Helper lemmas -/

/-- Concatenation of a list of strings (used to state the shape of the
generated documents). -/
def concatAll : List String → String
  | [] => ""
  | s :: ss => s ++ concatAll ss

theorem auth_foldl (repos : List Repo) (init : String) :
    repos.foldl
        (fun xml r => if r.token ≠ "" then xml ++ tokenInfoEntry r else xml)
        init =
      init ++ concatAll ((repos.filter fun r => r.token ≠ "").map
        tokenInfoEntry) := by
  induction repos generalizing init with
  | nil => simp [concatAll]
  | cons r rs ih =>
    rw [List.foldl_cons]
    by_cases h : r.token = ""
    · rw [if_neg (fun hh => hh h), ih]
      congr 2
      simp [List.filter_cons, h]
    · rw [if_pos h, ih, String.append_assoc]
      congr 1
      simp [List.filter_cons, h, concatAll]

theorem splitChar_ne_nil (sep : Char) (l : List Char) :
    splitChar sep l ≠ [] := by
  cases l with
  | nil => simp [splitChar]
  | cons c cs =>
    simp only [splitChar]
    split
    · simp
    · split
      · simp
      · simp

theorem splitChar_head (sep : Char) (l : List Char) :
    (splitChar sep l).headD [] = l.takeWhile (fun c => c != sep) := by
  induction l with
  | nil => simp [splitChar]
  | cons c cs ih =>
    simp only [splitChar]
    by_cases h : c = sep
    · simp [h]
    · simp only [h, if_neg, not_false_iff]
      cases hs : splitChar sep cs with
      | nil => exact absurd hs (splitChar_ne_nil sep cs)
      | cons t ts =>
        rw [hs] at ih
        simp only [List.headD_cons] at ih ⊢
        simp [List.takeWhile_cons, h, ih]

theorem splitChar_second (sep : Char) (l : List Char) :
    (splitChar sep l)[1]? =
      if l.contains sep then
        some (((l.dropWhile fun c => c != sep).drop 1).takeWhile
          fun c => c != sep)
      else none := by
  induction l with
  | nil => simp [splitChar]
  | cons c cs ih =>
    by_cases h : c = sep
    · have hcont : (c :: cs).contains sep = true := by
        simp [List.contains_cons, h]
      have hdrop : ((c :: cs).dropWhile fun x => x != sep) = c :: cs := by
        simp [List.dropWhile_cons, h]
      simp only [splitChar, if_pos h, hcont, if_true, hdrop,
        List.drop_succ_cons, List.drop_zero]
      cases hs : splitChar sep cs with
      | nil => exact absurd hs (splitChar_ne_nil sep cs)
      | cons t ts =>
        have hh := splitChar_head sep cs
        rw [hs] at hh
        simp only [List.headD_cons] at hh
        simp [hh]
    · have hcont : (c :: cs).contains sep = cs.contains sep := by
        simp only [List.contains_cons, Bool.or_eq_true]
        have : (sep == c) = false := by
          simpa using fun hcs => absurd hcs.symm h
        simp [this]
      have hdrop : ((c :: cs).dropWhile fun x => x != sep) =
          cs.dropWhile fun x => x != sep := by
        simp [List.dropWhile_cons, h]
      simp only [splitChar, if_neg h]
      cases hs : splitChar sep cs with
      | nil => exact absurd hs (splitChar_ne_nil sep cs)
      | cons t ts =>
        rw [hs] at ih
        rw [hcont, hdrop]
        simpa using ih

/-- The gate's guard, written with `Option.isSome`/`Option.getD` as the
code computes it, is equivalent to "minor < 21, or minor = 21 and a
patch component is present and below 1". -/
theorem gate_guard_iff (minr : Nat) (patchOpt : Option Nat) :
    (minr < 21 ∨ (minr = 21 ∧ patchOpt.isSome = true ∧ patchOpt.getD 0 < 1))
      ↔ (minr < 21 ∨ (minr = 21 ∧ ∃ p, patchOpt = some p ∧ p < 1)) := by
  cases patchOpt <;> simp

/-- Under the hypotheses that make the version gate fire and reject, the
run fails with the gate message, before the authentication settings,
the image manifest or any `tap` invocation. -/
theorem mainEffects_gate_reject (inp : Inputs) (env : Env)
    (platform settingsDir : String) (major minr : Nat) (patchOpt : Option Nat)
    (hp : inp.packages ≠ "") (hv : inp.version ≠ "")
    (ht : inp.token ≠ "" ∨
      (inp.additionalRepository ≠ "" ∧ inp.additionalRepositoryToken ≠ ""))
    (hx : extractZip env = true)
    (hu : inp.additionalRepository ≠ "" →
      (urlHost (resolveAdditionalRepo inp.additionalRepository)).isSome = true)
    (hm : parseVersion inp.version = some (major, minr, patchOpt))
    (hrej : minr < 21 ∨
      (minr = 21 ∧ patchOpt.isSome = true ∧ patchOpt.getD 0 < 1)) :
    (mainEffects inp env platform settingsDir).failure = some gateMessage ∧
    (mainEffects inp env platform settingsDir).gateChecked = true ∧
    (mainEffects inp env platform settingsDir).authSettingsWrite = none ∧
    (mainEffects inp env platform settingsDir).imageWrite = none ∧
    (mainEffects inp env platform settingsDir).tapCalls = [] := by
  by_cases hA : inp.additionalRepository = ""
  · have htok : inp.token ≠ "" := by
      rcases ht with h | ⟨h1, _⟩
      · exact h
      · exact absurd hA h1
    simp [mainEffects, noEffects, hp, hv, hx, hA, hm, htok]
    split
    · simp
    · rename_i hcond
      exact absurd (by simpa using hrej) hcond
  · obtain ⟨d, hd⟩ := Option.isSome_iff_exists.mp (hu hA)
    have htk : inp.token ≠ "" ∨ inp.additionalRepositoryToken ≠ "" :=
      ht.imp id And.right
    rcases htk with htk | htk
    · simp [mainEffects, noEffects, hp, hv, hx, hA, hd, hm, htk]
      split
      · simp
      · rename_i hcond
        exact absurd (by simpa using hrej) hcond
    · simp [mainEffects, noEffects, hp, hv, hx, hA, hd, hm, htk]
      split
      · simp
      · rename_i hcond
        exact absurd (by simpa using hrej) hcond

/-- Under the hypotheses that make the version gate fire and accept, the
run does not fail. -/
theorem mainEffects_gate_accept (inp : Inputs) (env : Env)
    (platform settingsDir : String) (major minr : Nat) (patchOpt : Option Nat)
    (hp : inp.packages ≠ "") (hv : inp.version ≠ "")
    (ht : inp.token ≠ "" ∨
      (inp.additionalRepository ≠ "" ∧ inp.additionalRepositoryToken ≠ ""))
    (hx : extractZip env = true)
    (hu : inp.additionalRepository ≠ "" →
      (urlHost (resolveAdditionalRepo inp.additionalRepository)).isSome = true)
    (hm : parseVersion inp.version = some (major, minr, patchOpt))
    (hacc : ¬ (minr < 21 ∨
      (minr = 21 ∧ patchOpt.isSome = true ∧ patchOpt.getD 0 < 1))) :
    (mainEffects inp env platform settingsDir).failure = none := by
  by_cases hA : inp.additionalRepository = ""
  · have htok : inp.token ≠ "" := by
      rcases ht with h | ⟨h1, _⟩
      · exact h
      · exact absurd hA h1
    simp [mainEffects, noEffects, hp, hv, hx, hA, hm, htok]
    split
    · rename_i hcond
      exact absurd (by simpa using hcond) hacc
    · simp
  · obtain ⟨d, hd⟩ := Option.isSome_iff_exists.mp (hu hA)
    have htk : inp.token ≠ "" ∨ inp.additionalRepositoryToken ≠ "" :=
      ht.imp id And.right
    rcases htk with htk | htk
    · simp [mainEffects, noEffects, hp, hv, hx, hA, hd, hm, htk]
      split
      · rename_i hcond
        exact absurd (by simpa using hcond) hacc
      · simp
    · simp [mainEffects, noEffects, hp, hv, hx, hA, hd, hm, htk]
      split
      · rename_i hcond
        exact absurd (by simpa using hcond) hacc
      · simp

/-- The run fails with the extraction message exactly when both
extraction mechanisms fail; no other failure carries that message. -/
theorem mainEffects_failure_extract (inp : Inputs) (env : Env)
    (platform settingsDir : String) :
    ((mainEffects inp env platform settingsDir).failure =
        some extractFailMessage) ↔ extractZip env = false := by
  by_cases hx : extractZip env = false
  · simp [mainEffects, noEffects, hx]
  · refine iff_of_false ?_ hx
    simp only [mainEffects]
    rw [if_neg hx]
    split <;> (try split) <;> (try split) <;> (try split) <;>
      (try split) <;> (try split) <;>
      simp [noEffects, extractFailMessage, invalidUrlMessage,
        versionMatchCrashMessage, gateMessage]

/-! ## Claims -/

/-- C2: `GetAuthenticationSettings`, applied to any sequence of
repository descriptors, returns a document consisting of the fixed
header, then exactly one `TokenInfo` fragment per repository whose
token is non-empty, in input order, each carrying that repository's
token and domain, then the fixed footer; in particular the document
for the empty sequence contains zero `TokenInfo` entries, and the
document for `[{token:"t1",domain:"a.com"}, {domain:"b.com"}]`
contains exactly one. -/
theorem C2_authentication_settings_entries :
    (∀ repositories : List Repo,
      GetAuthenticationSettings repositories =
        authHeader ++
          concatAll ((repositories.filter fun r => r.token ≠ "").map
            tokenInfoEntry) ++
          authFooter) ∧
    countTokenInfo (GetAuthenticationSettings []) = 0 ∧
    countTokenInfo
      (GetAuthenticationSettings
        [{ url := "", domain := "a.com", token := "t1" },
         { url := "", domain := "b.com", token := "" }]) = 1 := by
  refine ⟨fun repositories => ?_, ?_, ?_⟩
  · unfold GetAuthenticationSettings
    rw [auth_foldl]
  · set_option maxRecDepth 16384 in decide
  · set_option maxRecDepth 16384 in decide

/-- C3 counterexample: on the input `"N:1:2"` the produced version is
`"1"` (the text between the first and second colon), not `"1:2"` (the
whole text after the first colon), so the claim as stated is false. -/
theorem C3_counterexample_version_field :
    parsePackages ("N:1:2") = [{ Name := "N", Version := some ("1") }] ∧
      ({ Name := "N", Version := some ("1") } : PackageRef) ≠
        { Name := "N", Version := some ("1:2") } := by
  constructor
  · decide
  · decide

/-- C3 (amended): parsing the packages input splits it on commas,
producing one package reference per spec in input order; the name is
the text before the first colon, and the version is the text between
the first and the second colon (absent when the spec has no colon). -/
theorem C3_packages_parsing (s : String) :
    parsePackages s =
      (splitChar ',' s.toList).map fun spec =>
        { Name := String.mk (spec.takeWhile fun c => c != ':')
          Version :=
            if spec.contains ':' then
              some (String.mk
                (((spec.dropWhile fun c => c != ':').drop 1).takeWhile
                  fun c => c != ':'))
            else none } := by
  unfold parsePackages
  refine List.map_congr_left fun spec _ => ?_
  dsimp only
  rw [splitChar_head, splitChar_second]
  by_cases hc : spec.contains ':' <;> simp [hc]

/-- C4 counterexample: the input `"Demo,"` (a trailing comma) produces a
package reference with an empty name, so the invariant fails on the
code as written. -/
theorem C4_counterexample_empty_name :
    ¬ ∀ r ∈ parsePackages ("Demo,"), r.Name ≠ "" := by decide

/-- C4 (amended): for every packages input string in which each
comma-separated spec is non-empty and does not begin with a colon,
every package reference produced by parsing it has a non-empty
name. -/
theorem C4_package_names_nonempty (s : String)
    (h : ∀ spec ∈ splitChar ',' s.toList, spec ≠ [] ∧ spec.head? ≠ some ':') :
    ∀ r ∈ parsePackages s, r.Name ≠ "" := by
  intro r hr
  unfold parsePackages at hr
  obtain ⟨spec, hspec, rfl⟩ := List.mem_map.mp hr
  obtain ⟨hne, hhead⟩ := h spec hspec
  dsimp only
  cases spec with
  | nil => exact absurd rfl hne
  | cons c cs =>
    have hc : (c != ':') = true := by
      simp only [List.head?_cons, ne_eq, Option.some.injEq] at hhead
      simpa using hhead
    simp only [splitChar_head, List.takeWhile_cons, hc, if_true]
    simp [String.ext_iff]

/-- C4 witness: the reference parsed from `"A:1,B"`'s first spec has the
non-empty name `"A"`. -/
theorem C4_package_names_nonempty_witness :
    ({ Name := "A", Version := some ("1") } : PackageRef) ∈
        parsePackages ("A:1,B") ∧
      ({ Name := "A", Version := some ("1") } : PackageRef).Name ≠ "" :=
  ⟨by decide, C4_package_names_nonempty ("A:1,B") (by decide) _ (by decide)⟩

/-- C5 counterexample: the input `"httpfoo.com"` has no scheme (it
contains no colon at all), yet the code leaves it unchanged — it is not
`"https://httpfoo.com"` — because the code's test is
`startsWith("http")`, not a scheme test. -/
theorem C5_counterexample_scheme :
    specHasScheme ("httpfoo.com") = false ∧
      resolveAdditionalRepo ("httpfoo.com") = "httpfoo.com" ∧
      ("httpfoo.com" : String) ≠ "https://" ++ "httpfoo.com" := by
  exact ⟨by decide, by decide, by decide⟩

/-- C5 (amended): for every run that installs packages with a non-empty
additional-repository input, the resolved repository URL (the second
entry of the repository list) equals the input unchanged when the input
starts with the four characters `http`, and the input with `https://`
prepended otherwise. -/
theorem C5_additional_repository_resolution (inp : Inputs) (env : Env)
    (hp : inp.packages ≠ "") (ha : inp.additionalRepository ≠ "")
    (hx : extractZip env = true)
    (hu : (urlHost (resolveAdditionalRepo inp.additionalRepository)).isSome
      = true) :
    (runMain inp env).repositories.map (fun r => r.url) =
      ["https://packages.opentap.io",
       if jsStartsWith inp.additionalRepository ("http") then
         inp.additionalRepository
       else ("https://") ++ inp.additionalRepository] := by
  obtain ⟨d, hd⟩ := Option.isSome_iff_exists.mp hu
  simp [runMain, mainEffects, hx, hp, ha, hd]
  split <;> (try split) <;> (try split) <;> (try split) <;>
    simp_all [resolveAdditionalRepo]

/-- C5 witness: the input `"foo.com/repo"` resolves to
`"https://foo.com/repo"`. -/
theorem C5_additional_repository_resolution_witness :
    (runMain ⟨"", "", "", "Demo", "", "foo.com/repo", ""⟩
        ⟨"linux", "x64", true, true, false⟩).repositories.map
      (fun r => r.url) =
      ["https://packages.opentap.io", "https://foo.com/repo"] :=
  (C5_additional_repository_resolution _ _ (by decide) (by decide)
      (by decide) (by decide)).trans (by decide)

/-- C6 counterexample: on a `linux` host with the explicit os input
`"windows"`, the os query parameter is `windows` but the installation
directory is `/opt/tap` — the detected platform's directory, not
`INSTALL_DIRS ("windows")` — so the os input does not determine the
installation directory. -/
theorem C6_counterexample_os_override :
    (runMain ⟨"", "", "windows", "", "", "", ""⟩
        ⟨"linux", "x64", true, true, false⟩).downloadArgs =
      ["architecture=x64", "os=windows"] ∧
    (runMain ⟨"", "", "windows", "", "", "", ""⟩
        ⟨"linux", "x64", true, true, false⟩).destDir = "/opt/tap" ∧
    INSTALL_DIRS ("windows") = "C:/Program Files/OpenTAP" ∧
    ("/opt/tap" : String) ≠ "C:/Program Files/OpenTAP" := by
  exact ⟨by decide, by decide, by decide, by decide⟩

/-- C6 (amended): the os query parameter is the explicit os input when
configured and otherwise the detected platform (darwin → macos,
win32 → windows, every other identifier → linux); the installation
directory is determined by the detected platform alone via the fixed
mapping linux → /opt/tap, windows → C:/Program Files/OpenTAP,
macos → /Users/runner/Library/OpenTAP, and the explicit os input takes
precedence over detection only for the query parameter, not for the
installation directory. -/
theorem C6_platform_resolution (inp : Inputs) (env : Env) :
    (runMain inp env).destDir =
      INSTALL_DIRS (resolvePlatform env.platformString) ∧
    (runMain inp env).downloadArgs.getLast? =
      some ("os=" ++
        (if inp.os ≠ "" then inp.os else resolvePlatform env.platformString)) ∧
    (resolvePlatform env.platformString = "linux" ∨
     resolvePlatform env.platformString = "windows" ∨
     resolvePlatform env.platformString = "macos") ∧
    INSTALL_DIRS ("linux") = "/opt/tap" ∧
    INSTALL_DIRS ("windows") = "C:/Program Files/OpenTAP" ∧
    INSTALL_DIRS ("macos") = "/Users/runner/Library/OpenTAP" := by
  refine ⟨rfl, ?_, ?_, rfl, rfl, rfl⟩
  · simp [runMain, List.getLast?_concat]
  · unfold resolvePlatform
    split <;> (try split) <;> simp

/-- C7: the download URL's query always lists its parameters in the
order version (present exactly when a version was configured),
architecture (the explicit input when configured, otherwise `x86` for a
detected `x32` host and `x64` for every other value), and os; in
particular version `9.21.1` on a Linux x64 host yields a URL containing
`version=9.21.1&architecture=x64&os=linux`. -/
theorem C7_download_query (inp : Inputs) (env : Env) :
    (runMain inp env).downloadArgs =
      (if inp.version ≠ "" then ["version=" ++ inp.version] else []) ++
      ["architecture=" ++
        (if inp.architecture ≠ "" then inp.architecture
         else if env.archString = "x32" then ("x86") else ("x64")),
       "os=" ++
        (if inp.os ≠ "" then inp.os else resolvePlatform env.platformString)] ∧
    (runMain inp env).downloadUrl =
      "https://packages.opentap.io/3.0/DownloadPackage/OpenTAP?" ++
        String.intercalate ("&") ((runMain inp env).downloadArgs) ∧
    (runMain ⟨"9.21.1", "", "", "Demonstration", "abc", "", ""⟩
        ⟨"linux", "x64", true, true, false⟩).downloadUrl =
      "https://packages.opentap.io/3.0/DownloadPackage/OpenTAP?version=9.21.1&architecture=x64&os=linux" := by
  refine ⟨?_, ?_, by decide⟩
  · simp [runMain, List.append_assoc]
  · simp [runMain]

/-- C1: for every run that installs packages with an explicitly
configured version, at least one non-empty repository token, a valid
additional-repository URL (when one is configured) and a successful
extraction, if the version parses as `major.minor[.patch]` then the run
aborts with the minimum-version message if and only if `minor < 21`, or
`minor = 21` and a patch component is present and below 1. -/
theorem C1_version_gate (inp : Inputs) (env : Env)
    (major minr : Nat) (patchOpt : Option Nat)
    (hp : inp.packages ≠ "") (hv : inp.version ≠ "")
    (ht : inp.token ≠ "" ∨
      (inp.additionalRepository ≠ "" ∧ inp.additionalRepositoryToken ≠ ""))
    (hx : extractZip env = true)
    (hu : inp.additionalRepository ≠ "" →
      (urlHost (resolveAdditionalRepo inp.additionalRepository)).isSome = true)
    (hm : parseVersion inp.version = some (major, minr, patchOpt)) :
    (runMain inp env).failure = some gateMessage ↔
      (minr < 21 ∨ (minr = 21 ∧ ∃ p, patchOpt = some p ∧ p < 1)) := by
  have hrun : (runMain inp env).failure =
      (mainEffects inp env (resolvePlatform env.platformString)
        (INSTALL_DIRS (resolvePlatform env.platformString) ++
          "/Settings/")).failure := rfl
  by_cases hrej : minr < 21 ∨
      (minr = 21 ∧ patchOpt.isSome = true ∧ patchOpt.getD 0 < 1)
  · have h1 := (mainEffects_gate_reject inp env
      (resolvePlatform env.platformString)
      (INSTALL_DIRS (resolvePlatform env.platformString) ++ "/Settings/")
      major minr patchOpt hp hv ht hx hu hm hrej).1
    exact iff_of_true (hrun.trans h1) ((gate_guard_iff minr patchOpt).mp hrej)
  · have h1 := mainEffects_gate_accept inp env
      (resolvePlatform env.platformString)
      (INSTALL_DIRS (resolvePlatform env.platformString) ++ "/Settings/")
      major minr patchOpt hp hv ht hx hu hm hrej
    refine iff_of_false ?_
      (fun hr => hrej ((gate_guard_iff minr patchOpt).mpr hr))
    rw [hrun, h1]
    simp

/-- C1 witness: version `"9.21.0"` (minor 21, patch 0) with a token and
packages configured is rejected with the gate message. -/
theorem C1_version_gate_witness :
    (runMain ⟨"9.21.0", "", "", "Demo", "t", "", ""⟩
        ⟨"linux", "x64", true, true, false⟩).failure = some gateMessage :=
  (C1_version_gate ⟨"9.21.0", "", "", "Demo", "t", "", ""⟩
      ⟨"linux", "x64", true, true, false⟩ 9 21 (some 0) (by decide)
      (by decide) (Or.inl (by decide)) (by rfl)
      (fun h => absurd rfl h) (by decide)).mpr
    (Or.inr ⟨rfl, 0, rfl, by decide⟩)

/-- C8: extraction tries `tc.extractZip` first and `pwsh` exactly when
the primary mechanism fails; the run fails with the distinct
extraction message if and only if both mechanisms fail, and in that
case no settings directory is created, no chmod happens, no settings
or manifest file is written and no `tap` subprocess is invoked. -/
theorem C8_extraction_fallback (inp : Inputs) (env : Env) :
    (runMain inp env).extractAttempts =
      (if env.primaryExtractOk then ["tc.extractZip"]
       else ["tc.extractZip", "pwsh"]) ∧
    ((runMain inp env).failure = some extractFailMessage ↔
      env.primaryExtractOk = false ∧ env.fallbackExtractOk = false) ∧
    (env.primaryExtractOk = false → env.fallbackExtractOk = false →
      (runMain inp env).settingsDirCreated = false ∧
      (runMain inp env).chmodCalled = false ∧
      (runMain inp env).pmSettingsWrite = none ∧
      (runMain inp env).authSettingsWrite = none ∧
      (runMain inp env).imageWrite = none ∧
      (runMain inp env).tapCalls = []) := by
  refine ⟨rfl, ?_, ?_⟩
  · have h := mainEffects_failure_extract inp env
      (resolvePlatform env.platformString)
      (INSTALL_DIRS (resolvePlatform env.platformString) ++ "/Settings/")
    refine h.trans ?_
    cases hP : env.primaryExtractOk <;> cases hF : env.fallbackExtractOk <;>
      simp [extractZip, hP, hF]
  · intro hP hF
    have hx : extractZip env = false := by simp [extractZip, hP, hF]
    simp [runMain, mainEffects, noEffects, hx]

/-- C8 witness: with both mechanisms failing, the run fails with the
extraction message and invokes no `tap` subprocess. -/
theorem C8_extraction_fallback_witness :
    (runMain ⟨"", "", "", "Demo", "", "", ""⟩
        ⟨"linux", "x64", false, false, false⟩).failure =
      some extractFailMessage ∧
    (runMain ⟨"", "", "", "Demo", "", "", ""⟩
        ⟨"linux", "x64", false, false, false⟩).tapCalls = [] := by
  have h := C8_extraction_fallback ⟨"", "", "", "Demo", "", "", ""⟩
    ⟨"linux", "x64", false, false, false⟩
  exact ⟨h.2.1.mpr ⟨rfl, rfl⟩, (h.2.2 rfl rfl).2.2.2.2.2⟩

/-- C9: when the version gate rejects, the run aborts with the message
naming the minimum supported version, the authentication settings file
is not written, and no `tap` subprocess (in particular not the
package-installation one) is invoked. -/
theorem C9_gate_reject_aborts (inp : Inputs) (env : Env)
    (major minr : Nat) (patchOpt : Option Nat)
    (hp : inp.packages ≠ "") (hv : inp.version ≠ "")
    (ht : inp.token ≠ "" ∨
      (inp.additionalRepository ≠ "" ∧ inp.additionalRepositoryToken ≠ ""))
    (hx : extractZip env = true)
    (hu : inp.additionalRepository ≠ "" →
      (urlHost (resolveAdditionalRepo inp.additionalRepository)).isSome = true)
    (hm : parseVersion inp.version = some (major, minr, patchOpt))
    (hrej : minr < 21 ∨ (minr = 21 ∧ ∃ p, patchOpt = some p ∧ p < 1)) :
    (runMain inp env).failure = some gateMessage ∧
    (runMain inp env).authSettingsWrite = none ∧
    (runMain inp env).imageWrite = none ∧
    (runMain inp env).tapCalls = [] := by
  have h := mainEffects_gate_reject inp env
    (resolvePlatform env.platformString)
    (INSTALL_DIRS (resolvePlatform env.platformString) ++ "/Settings/")
    major minr patchOpt hp hv ht hx hu hm
    ((gate_guard_iff minr patchOpt).mpr hrej)
  exact ⟨h.1, h.2.2.1, h.2.2.2.1, h.2.2.2.2⟩

/-- C9 witness: version `"9.20.0"` with a token and packages configured
aborts with the gate message and writes no authentication file. -/
theorem C9_gate_reject_aborts_witness :
    (runMain ⟨"9.20.0", "", "", "Demo", "t", "", ""⟩
        ⟨"linux", "x64", true, true, false⟩).failure = some gateMessage ∧
    (runMain ⟨"9.20.0", "", "", "Demo", "t", "", ""⟩
        ⟨"linux", "x64", true, true, false⟩).authSettingsWrite = none ∧
    (runMain ⟨"9.20.0", "", "", "Demo", "t", "", ""⟩
        ⟨"linux", "x64", true, true, false⟩).imageWrite = none ∧
    (runMain ⟨"9.20.0", "", "", "Demo", "t", "", ""⟩
        ⟨"linux", "x64", true, true, false⟩).tapCalls = [] :=
  C9_gate_reject_aborts ⟨"9.20.0", "", "", "Demo", "t", "", ""⟩
    ⟨"linux", "x64", true, true, false⟩ 9 20 (some 0) (by decide) (by decide)
    (Or.inl (by decide)) (by rfl) (fun h => absurd rfl h) (by decide)
    (Or.inl (by decide))

/-- C10: when the packages input is empty, the run performs no
version-compatibility check, writes no Package Manager.xml, no
AuthenticationSettings.xml and no image.json, and the only `tap`
subprocess invoked is the package list — whatever version, tokens or
additional repository are configured. -/
theorem C10_no_packages_no_install (inp : Inputs) (env : Env)
    (hp : inp.packages = "") (hx : extractZip env = true) :
    (runMain inp env).gateChecked = false ∧
    (runMain inp env).pmSettingsWrite = none ∧
    (runMain inp env).authSettingsWrite = none ∧
    (runMain inp env).imageWrite = none ∧
    (runMain inp env).tapCalls = [["package", "list", "--installed"]] ∧
    (runMain inp env).failure = none := by
  simp [runMain, mainEffects, noEffects, hp, hx]

/-- C10 witness: with version, tokens and an additional repository all
configured but no packages, nothing but the package list happens. -/
theorem C10_no_packages_no_install_witness :
    (runMain ⟨"9.20.0", "", "", "", "t", "foo.com", "t2"⟩
        ⟨"linux", "x64", true, true, false⟩).gateChecked = false ∧
    (runMain ⟨"9.20.0", "", "", "", "t", "foo.com", "t2"⟩
        ⟨"linux", "x64", true, true, false⟩).pmSettingsWrite = none ∧
    (runMain ⟨"9.20.0", "", "", "", "t", "foo.com", "t2"⟩
        ⟨"linux", "x64", true, true, false⟩).authSettingsWrite = none ∧
    (runMain ⟨"9.20.0", "", "", "", "t", "foo.com", "t2"⟩
        ⟨"linux", "x64", true, true, false⟩).imageWrite = none ∧
    (runMain ⟨"9.20.0", "", "", "", "t", "foo.com", "t2"⟩
        ⟨"linux", "x64", true, true, false⟩).tapCalls =
      [["package", "list", "--installed"]] ∧
    (runMain ⟨"9.20.0", "", "", "", "t", "foo.com", "t2"⟩
        ⟨"linux", "x64", true, true, false⟩).failure = none :=
  C10_no_packages_no_install ⟨"9.20.0", "", "", "", "t", "foo.com", "t2"⟩
    ⟨"linux", "x64", true, true, false⟩ (by rfl) (by rfl)

end SetupOpenTap
